import Mathlib

/-!
Verification of the dataset-partitioning module `util.py`.

Strings are modelled as lists of bytes (each a `Nat` below 256), matching the
raw-byte hashing the source performs (`hashlib.sha1` applied directly to the
string).  Python's float percentage is modelled exactly over `ℚ`; at the one
boundary the claims exercise (remainder `2^27 - 1`, where the float product
`(2^27-1) * (100.0/(2^27-1))` evaluates to exactly `100.0`), the rational and
float semantics agree.
-/

/-- 32-bit truncation. -/
def w32 (x : Nat) : Nat := x % 4294967296

/-- Left rotation of a 32-bit word by `n` bits. -/
def rotl (n x : Nat) : Nat := w32 ((x <<< n) ||| (x >>> (32 - n)))

/-- Big-endian byte representation of `n` padded to `k` bytes. -/
def beBytes : Nat → Nat → List Nat
  | 0, _ => []
  | k + 1, n => beBytes k (n / 256) ++ [n % 256]

/-- SHA-1 message padding: append `0x80`, zeros to 56 mod 64, then the
bit length as 8 big-endian bytes. -/
def sha1pad (msg : List Nat) : List Nat :=
  let len := msg.length
  let z := (120 - ((len + 1) % 64)) % 64
  msg ++ [128] ++ List.replicate z 0 ++ beBytes 8 (8 * len)

/-- Split a byte list into chunks of 64 bytes (`fuel` bounds the recursion). -/
def chunks64 : Nat → List Nat → List (List Nat)
  | 0, _ => []
  | _, [] => []
  | fuel + 1, l => l.take 64 :: chunks64 fuel (l.drop 64)

/-- Interpret a byte list as big-endian 32-bit words. -/
def toWords : List Nat → List Nat
  | b0 :: b1 :: b2 :: b3 :: rest =>
      (((b0 * 256 + b1) * 256 + b2) * 256 + b3) :: toWords rest
  | _ => []

/-- Extend the 16 message words to 80 by the SHA-1 recurrence. -/
def extendWords : Nat → List Nat → List Nat
  | 0, ws => ws
  | k + 1, ws =>
      let n := ws.length
      extendWords k (ws ++ [rotl 1 (((ws.getD (n - 3) 0) ^^^ (ws.getD (n - 8) 0)) ^^^
        ((ws.getD (n - 14) 0) ^^^ (ws.getD (n - 16) 0)))])

/-- Round function and constant for SHA-1 round `i`. -/
def sha1fk (i b c d : Nat) : Nat × Nat :=
  if i < 20 then ((b &&& c) ||| ((b ^^^ 4294967295) &&& d), 1518500249)
  else if i < 40 then ((b ^^^ c) ^^^ d, 1859775393)
  else if i < 60 then (((b &&& c) ||| (b &&& d)) ||| (c &&& d), 2400959708)
  else ((b ^^^ c) ^^^ d, 3395469782)

/-- The 80 SHA-1 rounds over the extended schedule. -/
def sha1rounds : Nat → List Nat → Nat × Nat × Nat × Nat × Nat → Nat × Nat × Nat × Nat × Nat
  | _, [], st => st
  | i, w :: ws, (a, b, c, d, e) =>
      let fk := sha1fk i b c d
      let temp := w32 (rotl 5 a + fk.1 + e + fk.2 + w)
      sha1rounds (i + 1) ws (temp, a, rotl 30 b, c, d)

/-- Process one 64-byte chunk, updating the five hash words. -/
def processChunk (h : Nat × Nat × Nat × Nat × Nat) (chunk : List Nat) :
    Nat × Nat × Nat × Nat × Nat :=
  let ws := extendWords 64 (toWords chunk)
  let st := sha1rounds 0 ws h
  (w32 (h.1 + st.1), w32 (h.2.1 + st.2.1), w32 (h.2.2.1 + st.2.2.1),
   w32 (h.2.2.2.1 + st.2.2.2.1), w32 (h.2.2.2.2 + st.2.2.2.2))

/-- SHA-1 digest of a byte list, as the 160-bit natural number that
`int(hashlib.sha1(s).hexdigest(), 16)` denotes. -/
def sha1 (msg : List Nat) : Nat :=
  let padded := sha1pad msg
  let h := (chunks64 padded.length padded).foldl processChunk
    (1732584193, 4023233417, 2562383102, 271733878, 3285377520)
  (((h.1 * 4294967296 + h.2.1) * 4294967296 + h.2.2.1) * 4294967296 +
      h.2.2.2.1) * 4294967296 + h.2.2.2.2

set_option maxRecDepth 100000

/-- `MAX_NUM_WAVS_PER_CLASS = 2 ** 27 - 1` from `util.py`. -/
def MAX_NUM_WAVS_PER_CLASS : Nat := 2 ^ 27 - 1

/-- `os.path.basename`: the part of the path after the last `'/'` (byte 47). -/
def basename (filename : List Nat) : List Nat :=
  filename.foldl (fun acc c => if c == 47 then [] else acc ++ [c]) []

/-- The grouping marker `'_nohash_'` as bytes. -/
def nohashMarker : List Nat := [95, 110, 111, 104, 97, 115, 104, 95]

/-- No newline byte (10) occurs in the list.  In the pattern `_nohash_.*$`
the `.` metacharacter matches any byte except newline. -/
def noNl (t : List Nat) : Bool := t.all (fun c => !(c == 10))

/-- Behaviour of `.*$` (no `re.MULTILINE`) on the text `t` that follows the
marker: `$` matches only at the end of the string or just before a newline
that is the final character.  Returns the residual text the match leaves in
place (`none` when `.*$` cannot match anywhere in `t`). -/
def dollarTail (t : List Nat) : Option (List Nat) :=
  if noNl t then some []
  else if noNl t.dropLast && (t.getLast? == some 10) then some [10]
  else none

/-- `re.sub(r'_nohash_.*$', '', s)`: scan left to right for the first
position where `_nohash_` occurs and `.*$` can complete the match, and
delete the matched text.  `List.drop 7 rest` is the text after the 8-byte
marker at the head of `c :: rest`. -/
def subNohash : List Nat → List Nat
  | [] => []
  | c :: rest =>
      if nohashMarker.isPrefixOf (c :: rest) then
        match dollarTail (List.drop 7 rest) with
        | some keep => keep
        | none => c :: subNohash rest
      else c :: subNohash rest

/-- `percentage_hash` from `which_set`:
`(int(sha1(hash_name).hexdigest(), 16) % (MAX_NUM_WAVS_PER_CLASS + 1)) *
 (100.0 / MAX_NUM_WAVS_PER_CLASS)`, with the float arithmetic modelled
exactly over `ℚ`. -/
def percentage_hash (filename : List Nat) : ℚ :=
  ((sha1 (subNohash (basename filename)) % (MAX_NUM_WAVS_PER_CLASS + 1) : Nat) : ℚ) *
    (100 / (MAX_NUM_WAVS_PER_CLASS : ℚ))

/-- `which_set(filename, validation_percentage, testing_percentage)` from
`util.py`. -/
def which_set (filename : List Nat) (validation_percentage testing_percentage : ℚ) :
    String :=
  if percentage_hash filename < validation_percentage then "validation"
  else if percentage_hash filename < testing_percentage + validation_percentage then "testing"
  else "training"

/-- Modelled from the spec (claim C1's wording, for refinement comparison
only — the source is `percentage_hash` above): reduce the digest modulo
`2^27 - 1` and rescale by `100 / (2^27 - 1)`. -/
def percentageAsSpecified (filename : List Nat) : ℚ :=
  ((sha1 (subNohash (basename filename)) % MAX_NUM_WAVS_PER_CLASS : Nat) : ℚ) *
    (100 / (MAX_NUM_WAVS_PER_CLASS : ℚ))

/-- The base name's prefix strictly before the first occurrence of
`'_nohash_'` (the whole list when the marker never occurs). -/
def beforeMarker : List Nat → List Nat
  | [] => []
  | c :: rest =>
      if nohashMarker.isPrefixOf (c :: rest) then [] else c :: beforeMarker rest

/-- Whether `'_nohash_'` occurs somewhere in the list. -/
def containsMarker : List Nat → Bool
  | [] => false
  | c :: rest => nohashMarker.isPrefixOf (c :: rest) || containsMarker rest

/-- The text after the first occurrence of `'_nohash_'`. -/
def afterMarker : List Nat → List Nat
  | [] => []
  | c :: rest =>
      if nohashMarker.isPrefixOf (c :: rest) then List.drop 7 rest else afterMarker rest

/-! Concrete filenames used in witnesses and counterexamples, as byte lists. -/

/-- `"a/bobby_nohash_0.wav"`. -/
def fileBobby0 : List Nat :=
  [97, 47, 98, 111, 98, 98, 121, 95, 110, 111, 104, 97, 115, 104, 95, 48, 46, 119, 97, 118]

/-- `"a/bobby_nohash_1.wav"`. -/
def fileBobby1 : List Nat :=
  [97, 47, 98, 111, 98, 98, 121, 95, 110, 111, 104, 97, 115, 104, 95, 49, 46, 119, 97, 118]

/-- `"w2645664.wav"`, whose SHA-1 digest is `2^27 - 1` modulo `2^27`, so its
hash percentage is exactly 100. -/
def fileMaxHash : List Nat := [119, 50, 54, 52, 53, 54, 54, 52, 46, 119, 97, 118]

/-- `"a_nohash_\n0"`: the newline after the marker defeats `_nohash_.*$`,
so nothing is stripped. -/
def fileNl0 : List Nat := [97, 95, 110, 111, 104, 97, 115, 104, 95, 10, 48]

/-- `"a_nohash_\n1"`. -/
def fileNl1 : List Nat := [97, 95, 110, 111, 104, 97, 115, 104, 95, 10, 49]

/-- The two UTF-8 bytes of `"α"`, a non-ASCII base name. -/
def fileAlpha : List Nat := [206, 177]

/-! The configuration-assembly function `prepare_settings`. -/

/-- The `FLAGS` fields that `prepare_settings` reads. -/
structure FLAGS where
  num_units : Int
  dimension_projection : Int
  num_layers : Int
  sample_rate : Int
  clip_duration_ms : Int
  window_size_ms : Int
  window_stride_ms : Int
  num_coefficient : Int
  data_dir : String
  num_repeats : Int
  num_utt_enrollment : Int
  is_training : Bool
  batch_size : Int

/-- Python `dict` assignment `d[k] = v` on an insertion-ordered
association list. -/
def dictInsert : List (String × Int) → String → Int → List (String × Int)
  | [], k, v => [(k, v)]
  | (k0, v0) :: rest, k, v =>
      if k0 == k then (k, v) :: rest else (k0, v0) :: dictInsert rest k v

/-- `prepare_settings(FLAGS)` from `util.py`.  The external collaborators
(`input_data.prepare_audio_settings`, `input_data.AudioProcessor`,
`tf.placeholder`, and the `'spectrogram_length'` lookup on the audio
settings) are opaque and passed as parameters. -/
def prepare_settings {α β γ : Type}
    (prepareAudioSettings : Int → Int → Int → Int → Int → α)
    (spectrogramLength : α → Int)
    (audioProcessorNew : String → α → Int → Int → Bool → β)
    (placeholderNew : List Int → γ)
    (F : FLAGS) : List (String × Int) × β × γ :=
  let s1 := dictInsert [] "num_units" F.num_units
  let s2 := dictInsert s1 "dimension_projection" F.dimension_projection
  let lstm_model_settings := dictInsert s2 "num_layers" F.num_layers
  let audio_settings := prepareAudioSettings F.sample_rate F.clip_duration_ms
    F.window_size_ms F.window_stride_ms F.num_coefficient
  let audio_processor := audioProcessorNew F.data_dir audio_settings F.num_repeats
    F.num_utt_enrollment F.is_training
  let input_audio_data := placeholderNew
    [F.batch_size, 1 + F.num_utt_enrollment, spectrogramLength audio_settings,
      F.num_coefficient]
  (lstm_model_settings, audio_processor, input_audio_data)

/-! Theorems.  First, shared lemmas about the embedding. -/

/-- The SHA-1 embedding agrees with the standard test vector for `"abc"`. -/
theorem sha1_test_vector_abc :
    sha1 [97, 98, 99] = 968236873715988614170569073515315707566766479517 := by decide

/-- The SHA-1 embedding agrees with the standard digest of the empty message. -/
theorem sha1_test_vector_empty :
    sha1 [] = 1245845410931227995499360226027473197403882391305 := by decide

/-- The hash percentage is never negative. -/
theorem percentage_hash_nonneg (f : List Nat) : 0 ≤ percentage_hash f := by
  unfold percentage_hash
  positivity

/-- The hash percentage is at most 100 (with equality exactly when the
digest's remainder modulo `2^27` is `2^27 - 1`). -/
theorem percentage_hash_le_hundred (f : List Nat) : percentage_hash f ≤ 100 := by
  unfold percentage_hash
  have hr : (sha1 (subNohash (basename f)) % (MAX_NUM_WAVS_PER_CLASS + 1))
      ≤ MAX_NUM_WAVS_PER_CLASS :=
    Nat.lt_succ_iff.mp (Nat.mod_lt _ (Nat.succ_pos _))
  have hc : ((sha1 (subNohash (basename f)) % (MAX_NUM_WAVS_PER_CLASS + 1) : Nat) : ℚ)
      ≤ ((MAX_NUM_WAVS_PER_CLASS : Nat) : ℚ) := Nat.cast_le.mpr hr
  calc ((sha1 (subNohash (basename f)) % (MAX_NUM_WAVS_PER_CLASS + 1) : Nat) : ℚ) *
        (100 / (MAX_NUM_WAVS_PER_CLASS : ℚ))
      ≤ ((MAX_NUM_WAVS_PER_CLASS : Nat) : ℚ) * (100 / (MAX_NUM_WAVS_PER_CLASS : ℚ)) := by
        apply mul_le_mul_of_nonneg_right hc
        positivity
    _ = 100 := by
        norm_num [MAX_NUM_WAVS_PER_CLASS]

/-- The label depends on the filename only through the grouping key
`subNohash (basename f)`. -/
theorem which_set_key_congr (f1 f2 : List Nat) (v t : ℚ)
    (h : subNohash (basename f1) = subNohash (basename f2)) :
    which_set f1 v t = which_set f2 v t := by
  unfold which_set percentage_hash
  rw [h]

/-- Evaluation lemma: the hash percentage in terms of the digest's concrete
remainder `r` modulo `2^27` (the remainder itself is computed by `decide`,
the rational arithmetic by `norm_num`). -/
theorem percentage_hash_eq (f : List Nat) (r : Nat)
    (h : sha1 (subNohash (basename f)) % (MAX_NUM_WAVS_PER_CLASS + 1) = r) :
    percentage_hash f = (r : ℚ) * (100 / (MAX_NUM_WAVS_PER_CLASS : ℚ)) := by
  unfold percentage_hash
  rw [h]

/-- Evaluation lemma for the spec-modelled percentage. -/
theorem percentageAsSpecified_eq (f : List Nat) (r : Nat)
    (h : sha1 (subNohash (basename f)) % MAX_NUM_WAVS_PER_CLASS = r) :
    percentageAsSpecified f = (r : ℚ) * (100 / (MAX_NUM_WAVS_PER_CLASS : ℚ)) := by
  unfold percentageAsSpecified
  rw [h]

/-- Evaluation lemma: `which_set` in terms of the digest's concrete
remainder modulo `2^27`. -/
theorem which_set_eval (f : List Nat) (r : Nat)
    (h : sha1 (subNohash (basename f)) % (MAX_NUM_WAVS_PER_CLASS + 1) = r) (v t : ℚ) :
    which_set f v t =
      if (r : ℚ) * (100 / (MAX_NUM_WAVS_PER_CLASS : ℚ)) < v then "validation"
      else if (r : ℚ) * (100 / (MAX_NUM_WAVS_PER_CLASS : ℚ)) < t + v then "testing"
      else "training" := by
  unfold which_set
  rw [percentage_hash_eq f r h]

/-- When the marker occurs and the text after its first occurrence has no
newline, the regex substitution strips exactly from the first marker on. -/
theorem subNohash_eq_beforeMarker (b : List Nat)
    (hm : containsMarker b = true) (hn : noNl (afterMarker b) = true) :
    subNohash b = beforeMarker b := by
  induction b with
  | nil => simp [containsMarker] at hm
  | cons c rest ih =>
    by_cases hp : nohashMarker.isPrefixOf (c :: rest) = true
    · have hn' : noNl (List.drop 7 rest) = true := by
        simpa [afterMarker, hp] using hn
      simp [subNohash, beforeMarker, hp, dollarTail, hn']
    · have hm' : containsMarker rest = true := by
        simpa [containsMarker, hp] using hm
      have hn' : noNl (afterMarker rest) = true := by
        simpa [afterMarker, hp] using hn
      simp [subNohash, beforeMarker, hp, ih hm' hn']

/-! The claims. -/

/-- C1 (counterexample): the percentage is not always in `[0, 100)` — for
`"w2645664.wav"` it is exactly 100 — and the spec's `mod 2^27 - 1` formula
disagrees with the code (shown at `"abc"`). -/
theorem c1_counterexample :
    percentage_hash fileMaxHash = 100 ∧ ¬ percentage_hash fileMaxHash < 100 ∧
      percentageAsSpecified [97, 98, 99] ≠ percentage_hash [97, 98, 99] := by
  have h100 : percentage_hash fileMaxHash = 100 := by
    rw [percentage_hash_eq fileMaxHash 134217727 (by decide)]
    norm_num [MAX_NUM_WAVS_PER_CLASS]
  refine ⟨h100, by rw [h100]; norm_num, ?_⟩
  rw [percentageAsSpecified_eq [97, 98, 99] 82570261 (by decide),
    percentage_hash_eq [97, 98, 99] 80795805 (by decide)]
  norm_num [MAX_NUM_WAVS_PER_CLASS]

/-- C1 (amended): `which_set` computes the percentage by reducing the SHA-1
digest of the grouping key modulo `2^27` (not `2^27 - 1`) and rescaling by
`100 / (2^27 - 1)`, so the percentage always lies in the closed interval
`[0, 100]`. -/
theorem c1_percentage_formula_and_range (f : List Nat) :
    percentage_hash f =
      ((sha1 (subNohash (basename f)) % 2 ^ 27 : Nat) : ℚ) *
        (100 / ((2 ^ 27 - 1 : Nat) : ℚ)) ∧
      0 ≤ percentage_hash f ∧ percentage_hash f ≤ 100 := by
  refine ⟨?_, percentage_hash_nonneg f, percentage_hash_le_hundred f⟩
  unfold percentage_hash MAX_NUM_WAVS_PER_CLASS
  norm_num

/-- C2 (counterexample): with `validation_percentage = 100` the file
`"w2645664.wav"` (hash percentage exactly 100) is not sent to validation;
with `testing_percentage = 0` it lands in training. -/
theorem c2_counterexample :
    which_set fileMaxHash 100 0 ≠ "validation" ∧
      which_set fileMaxHash 100 0 = "training" := by
  have h : which_set fileMaxHash 100 0 = "training" := by
    rw [which_set_eval fileMaxHash 134217727 (by decide) 100 0]
    norm_num [MAX_NUM_WAVS_PER_CLASS]
  exact ⟨by rw [h]; decide, h⟩

/-- C2 (amended): with `validation_percentage = 100`, every filename whose
hash percentage is below 100 is assigned `'validation'`, for every
`testing_percentage`. -/
theorem c2_validation_at_full_threshold (f : List Nat) (t : ℚ)
    (h : percentage_hash f < 100) : which_set f 100 t = "validation" := by
  unfold which_set
  rw [if_pos h]

/-- Witness for C2 at `"a/bobby_nohash_0.wav"` with `testing_percentage = 7`. -/
theorem c2_validation_at_full_threshold_witness :
    percentage_hash fileBobby0 < 100 ∧ which_set fileBobby0 100 7 = "validation" := by
  have hb : percentage_hash fileBobby0 < 100 := by
    rw [percentage_hash_eq fileBobby0 126399259 (by decide)]
    norm_num [MAX_NUM_WAVS_PER_CLASS]
  exact ⟨hb, c2_validation_at_full_threshold fileBobby0 7 hb⟩

/-- C3 (counterexample): with thresholds `50 + 50 = 100`, the file
`"w2645664.wav"` (hash percentage exactly 100) is assigned `'training'`. -/
theorem c3_counterexample :
    (50 : ℚ) + 50 = 100 ∧ which_set fileMaxHash 50 50 = "training" := by
  refine ⟨by norm_num, ?_⟩
  rw [which_set_eval fileMaxHash 134217727 (by decide) 50 50]
  norm_num [MAX_NUM_WAVS_PER_CLASS]

/-- C3 (amended): when the thresholds sum to 100, `which_set` never returns
`'training'` for a filename whose hash percentage is below 100. -/
theorem c3_no_training_when_sum_hundred (f : List Nat) (v t : ℚ)
    (hsum : v + t = 100) (hp : percentage_hash f < 100) :
    which_set f v t ≠ "training" := by
  unfold which_set
  by_cases h1 : percentage_hash f < v
  · rw [if_pos h1]; decide
  · rw [if_neg h1]
    have h2 : percentage_hash f < t + v := by
      have ht : t + v = 100 := by linarith
      rw [ht]; exact hp
    rw [if_pos h2]; decide

/-- Witness for C3 at `"a/bobby_nohash_0.wav"` with thresholds 50 and 50. -/
theorem c3_no_training_when_sum_hundred_witness :
    (50 : ℚ) + 50 = 100 ∧ percentage_hash fileBobby0 < 100 ∧
      which_set fileBobby0 50 50 ≠ "training" := by
  have hb : percentage_hash fileBobby0 < 100 := by
    rw [percentage_hash_eq fileBobby0 126399259 (by decide)]
    norm_num [MAX_NUM_WAVS_PER_CLASS]
  exact ⟨by norm_num, hb,
    c3_no_training_when_sum_hundred fileBobby0 50 50 (by norm_num) hb⟩

/-- C4: `which_set` is a deterministic function of the grouping key and the
two thresholds — equal grouping keys yield the identical label. -/
theorem c4_deterministic_on_grouping_key (f1 f2 : List Nat) (v t : ℚ)
    (h : subNohash (basename f1) = subNohash (basename f2)) :
    which_set f1 v t = which_set f2 v t :=
  which_set_key_congr f1 f2 v t h

/-- Witness for C4: `"a/x.wav"` and `"b/x.wav"` share the grouping key
`"x.wav"` and get the same label at thresholds 10 and 10. -/
theorem c4_deterministic_on_grouping_key_witness :
    subNohash (basename [97, 47, 120, 46, 119, 97, 118]) =
        subNohash (basename [98, 47, 120, 46, 119, 97, 118]) ∧
      which_set [97, 47, 120, 46, 119, 97, 118] 10 10 =
        which_set [98, 47, 120, 46, 119, 97, 118] 10 10 :=
  ⟨by decide, c4_deterministic_on_grouping_key _ _ 10 10 (by decide)⟩

/-- C5 (counterexample): `"a_nohash_\n0"` and `"a_nohash_\n1"` agree before
their first `'_nohash_'`, yet at `validation_percentage = 29` they receive
different labels, because the newline defeats the regex `_nohash_.*$` and
nothing is stripped. -/
theorem c5_counterexample :
    beforeMarker (basename fileNl0) = beforeMarker (basename fileNl1) ∧
      which_set fileNl0 29 0 ≠ which_set fileNl1 29 0 := by
  have h0 : which_set fileNl0 29 0 = "training" := by
    rw [which_set_eval fileNl0 40857868 (by decide) 29 0]
    norm_num [MAX_NUM_WAVS_PER_CLASS]
  have h1 : which_set fileNl1 29 0 = "validation" := by
    rw [which_set_eval fileNl1 36805107 (by decide) 29 0]
    norm_num [MAX_NUM_WAVS_PER_CLASS]
  exact ⟨by decide, by rw [h0, h1]; decide⟩

/-- C5 (amended): two paths whose base names agree before their first
`'_nohash_'` receive the same label for the same thresholds, provided the
text after the first `'_nohash_'` of each base name contains no newline
byte (then the regex strips from the first marker on). -/
theorem c5_grouping_invariance (f1 f2 : List Nat) (v t : ℚ)
    (hpre : beforeMarker (basename f1) = beforeMarker (basename f2))
    (hm1 : containsMarker (basename f1) = true)
    (hm2 : containsMarker (basename f2) = true)
    (hn1 : noNl (afterMarker (basename f1)) = true)
    (hn2 : noNl (afterMarker (basename f2)) = true) :
    which_set f1 v t = which_set f2 v t := by
  apply which_set_key_congr
  rw [subNohash_eq_beforeMarker _ hm1 hn1, subNohash_eq_beforeMarker _ hm2 hn2, hpre]

/-- Witness for C5: the spec's own pair `"a/bobby_nohash_0.wav"` and
`"a/bobby_nohash_1.wav"` at thresholds 10 and 10. -/
theorem c5_grouping_invariance_witness :
    beforeMarker (basename fileBobby0) = beforeMarker (basename fileBobby1) ∧
      which_set fileBobby0 10 10 = which_set fileBobby1 10 10 :=
  ⟨by decide, c5_grouping_invariance fileBobby0 fileBobby1 10 10
    (by decide) (by decide) (by decide) (by decide) (by decide)⟩

/-- C6: if a filename is assigned `'validation'` at threshold `v`, it is
still assigned `'validation'` at any larger threshold, `testing_percentage`
held fixed. -/
theorem c6_threshold_monotonicity (f : List Nat) (v v' t : ℚ)
    (h1 : which_set f v t = "validation") (h2 : v ≤ v') :
    which_set f v' t = "validation" := by
  have hp : percentage_hash f < v := by
    by_contra hp
    unfold which_set at h1
    rw [if_neg hp] at h1
    by_cases h3 : percentage_hash f < t + v
    · rw [if_pos h3] at h1; exact absurd h1 (by decide)
    · rw [if_neg h3] at h1; exact absurd h1 (by decide)
  unfold which_set
  rw [if_pos (lt_of_lt_of_le hp h2)]

/-- Witness for C6 at `"a/bobby_nohash_0.wav"` (hash percentage about 94.2),
moving the validation threshold from 95 to 96. -/
theorem c6_threshold_monotonicity_witness :
    which_set fileBobby0 95 0 = "validation" ∧ (95 : ℚ) ≤ 96 ∧
      which_set fileBobby0 96 0 = "validation" := by
  have h95 : which_set fileBobby0 95 0 = "validation" := by
    rw [which_set_eval fileBobby0 126399259 (by decide) 95 0]
    norm_num [MAX_NUM_WAVS_PER_CLASS]
  exact ⟨h95, by norm_num,
    c6_threshold_monotonicity fileBobby0 95 96 0 h95 (by norm_num)⟩

/-- C7: a zero threshold routes every filename away from its partition:
`validation_percentage = 0` never yields `'validation'`,
`testing_percentage = 0` never yields `'testing'`, and with both zero the
label is always `'training'`. -/
theorem c7_zero_thresholds (f : List Nat) (v t : ℚ) :
    which_set f 0 t ≠ "validation" ∧ which_set f v 0 ≠ "testing" ∧
      which_set f 0 0 = "training" := by
  have h0 : ¬ percentage_hash f < 0 := not_lt.mpr (percentage_hash_nonneg f)
  refine ⟨?_, ?_, ?_⟩
  · unfold which_set
    rw [if_neg h0]
    by_cases h3 : percentage_hash f < t + 0
    · rw [if_pos h3]; decide
    · rw [if_neg h3]; decide
  · unfold which_set
    by_cases h1 : percentage_hash f < v
    · rw [if_pos h1]; decide
    · rw [if_neg h1]
      have h2 : ¬ percentage_hash f < 0 + v := by rw [zero_add]; exact h1
      rw [if_neg h2]; decide
  · unfold which_set
    rw [if_neg h0]
    have h2 : ¬ percentage_hash f < 0 + 0 := by
      rw [show ((0 : ℚ) + 0) = 0 from by norm_num]; exact h0
    rw [if_neg h2]

/-- C8: the label is always exactly one of the three partition strings, and
the decision follows the fixed half-open-interval order of the code:
`'validation'` iff the percentage is below `validation_percentage`, else
`'testing'` iff it is below the sum, else `'training'`. -/
theorem c8_partition_characterization (f : List Nat) (v t : ℚ) :
    (which_set f v t = "training" ∨ which_set f v t = "validation" ∨
        which_set f v t = "testing") ∧
      (which_set f v t = "validation" ↔ percentage_hash f < v) ∧
      (which_set f v t = "testing" ↔
        ¬ percentage_hash f < v ∧ percentage_hash f < t + v) ∧
      (which_set f v t = "training" ↔
        ¬ percentage_hash f < v ∧ ¬ percentage_hash f < t + v) := by
  unfold which_set
  by_cases h1 : percentage_hash f < v
  · rw [if_pos h1]
    refine ⟨Or.inr (Or.inl rfl), ?_, ?_, ?_⟩
    · simp [h1]
    · constructor
      · intro h; exact absurd h (by decide)
      · rintro ⟨h, -⟩; exact absurd h1 h
    · constructor
      · intro h; exact absurd h (by decide)
      · rintro ⟨h, -⟩; exact absurd h1 h
  · rw [if_neg h1]
    by_cases h2 : percentage_hash f < t + v
    · rw [if_pos h2]
      refine ⟨Or.inr (Or.inr rfl), ?_, ?_, ?_⟩
      · constructor
        · intro h; exact absurd h (by decide)
        · intro h; exact absurd h h1
      · simp [h1, h2]
      · constructor
        · intro h; exact absurd h (by decide)
        · rintro ⟨-, h⟩; exact absurd h2 h
    · rw [if_neg h2]
      refine ⟨Or.inl rfl, ?_, ?_, ?_⟩
      · constructor
        · intro h; exact absurd h (by decide)
        · intro h; exact absurd h h1
      · constructor
        · intro h; exact absurd h (by decide)
        · rintro ⟨-, h⟩; exact absurd h h2
      · simp [h1, h2]

/-- C9: the embedded `which_set` is a total pure function: every byte-list
filename (the empty and non-ASCII base names included) and every pair of
rational thresholds yields one of the three labels, and concrete
evaluations on the empty name and on the UTF-8 bytes of `"α"` succeed. -/
theorem c9_totality :
    (∀ (f : List Nat) (v t : ℚ), which_set f v t = "training" ∨
        which_set f v t = "validation" ∨ which_set f v t = "testing") ∧
      which_set [] 10 10 = "training" ∧ which_set fileAlpha 50 0 = "validation" := by
  refine ⟨fun f v t => ?_, ?_, ?_⟩
  · unfold which_set
    by_cases h1 : percentage_hash f < v
    · rw [if_pos h1]; exact Or.inr (Or.inl rfl)
    · rw [if_neg h1]
      by_cases h2 : percentage_hash f < t + v
      · rw [if_pos h2]; exact Or.inr (Or.inr rfl)
      · rw [if_neg h2]; exact Or.inl rfl
  · rw [which_set_eval [] 131598089 (by decide) 10 10]
    norm_num [MAX_NUM_WAVS_PER_CLASS]
  · rw [which_set_eval fileAlpha 58779524 (by decide) 50 0]
    norm_num [MAX_NUM_WAVS_PER_CLASS]

/-- C10: the first component returned by `prepare_settings` is the
insertion-ordered dictionary with exactly the keys `'num_units'`,
`'dimension_projection'` and `'num_layers'`, valued by the equally named
`FLAGS` attributes — whatever the external collaborators and the other
`FLAGS` fields are. -/
theorem c10_prepare_settings_lstm_settings {α β γ : Type}
    (prepareAudioSettings : Int → Int → Int → Int → Int → α)
    (spectrogramLength : α → Int)
    (audioProcessorNew : String → α → Int → Int → Bool → β)
    (placeholderNew : List Int → γ) (F : FLAGS) :
    (prepare_settings prepareAudioSettings spectrogramLength audioProcessorNew
        placeholderNew F).1 =
      [("num_units", F.num_units), ("dimension_projection", F.dimension_projection),
        ("num_layers", F.num_layers)] := by
  rfl
